import Mathlib

/-!
Verification of the SWE statistics pipeline: a shallow embedding of the
hydrological-year utilities (`hydrological_year.py`), the SWE parameter
extraction (`swe_parameters.py`), the precipitation concentration index
(`precipitation_parameters.py`) and the trend estimator
(`trend_statistics.py`), together with theorems settling the behavioural
claims about them.
-/

namespace SweStats

/-! ## Calendar dates

The Python code works with `pandas.Timestamp` values at day resolution.
A date is `(year, month, day)`; `toOrdinal` is the proleptic Gregorian
day count (days from a fixed epoch), so that the `.days` field of a
pandas `Timedelta` between two day-resolution timestamps equals the
difference of their ordinals. -/

structure Date where
  year : Nat
  month : Nat
  day : Nat
deriving DecidableEq, Repr

def isLeap (y : Nat) : Bool :=
  (y % 4 == 0 && y % 100 != 0) || y % 400 == 0

def monthDays (leap : Bool) : Nat → Nat
  | 1 => 31
  | 2 => if leap then 29 else 28
  | 3 => 31
  | 4 => 30
  | 5 => 31
  | 6 => 30
  | 7 => 31
  | 8 => 31
  | 9 => 30
  | 10 => 31
  | 11 => 30
  | 12 => 31
  | _ => 0

def cumMonthDays (leap : Bool) : Nat → Nat
  | 0 => 0
  | m + 1 => cumMonthDays leap m + monthDays leap m

def daysInMonth (y m : Nat) : Nat :=
  monthDays (isLeap y) m

def daysBeforeMonth (y m : Nat) : Nat :=
  cumMonthDays (isLeap y) m

def daysBeforeYear (y : Nat) : Nat :=
  365 * (y - 1) + (y - 1) / 4 + (y - 1) / 400 - (y - 1) / 100

def toOrdinal (d : Date) : Nat :=
  daysBeforeYear d.year + daysBeforeMonth d.year d.month + d.day

/-- A well-formed calendar date (positive proleptic year). -/
def Date.Valid (d : Date) : Prop :=
  1 ≤ d.year ∧ 1 ≤ d.month ∧ d.month ≤ 12 ∧ 1 ≤ d.day ∧
    d.day ≤ daysInMonth d.year d.month

instance (d : Date) : Decidable d.Valid := by
  unfold Date.Valid; infer_instance

/-- The calendar day following `d` (for a valid `d`). -/
def nextDate (d : Date) : Date :=
  if d.day < daysInMonth d.year d.month then ⟨d.year, d.month, d.day + 1⟩
  else if d.month < 12 then ⟨d.year, d.month + 1, 1⟩
  else ⟨d.year + 1, 1, 1⟩

/-! ## Hydrological year (`hydrological_year.py`)

`assign_hydrological_year` adds `hydro_year = year + (month >= start_month)`;
`day_in_hydro_year` returns `None` on a missing date and otherwise
`(date - hydro_year_start).days + 1` where `hydro_year_start` is
`Timestamp(year if month >= start_month else year - 1, start_month, 1)`. -/

def hydroYear (d : Date) (startMonth : Nat) : Nat :=
  d.year + (if startMonth ≤ d.month then 1 else 0)

def hydroYearStart (d : Date) (startMonth : Nat) : Date :=
  ⟨if startMonth ≤ d.month then d.year else d.year - 1, startMonth, 1⟩

def dayInHydroYear (d : Date) (startMonth : Nat) : Int :=
  (toOrdinal d : Int) - (toOrdinal (hydroYearStart d startMonth) : Int) + 1

def dayInHydroYearOpt : Option Date → Nat → Option Int
  | none, _ => none
  | some d, s => some (dayInHydroYear d s)

/-! ## SWE parameter extraction (`swe_parameters.py`)

One hydrological-year group is a list of `(date, swe)` rows sorted by
date (the code does `group.sort_values('date')`).  Values are modelled
as exact rationals; the float literals `0.5` and `0.1` of the source are
the rationals they denote.  `idxmax`/`idxmin` return the first row
attaining the extremum, `head(1)` the first row in date order, and a
pandas `diff()` leaves the first entry missing (`NaN`), which compares
as not-greater-than-zero. -/

structure Row where
  date : Date
  swe : ℚ
deriving DecidableEq

instance : Inhabited Row := ⟨⟨⟨1, 1, 1⟩, 0⟩⟩

/-- `group.sort_values('date')` on a daily series: strictly increasing dates. -/
def SortedByDate (g : List Row) : Prop :=
  g.Pairwise (fun a b => toOrdinal a.date < toOrdinal b.date)

instance (g : List Row) : Decidable (SortedByDate g) := by
  unfold SortedByDate; infer_instance

/-- `group.loc[group['swe'].idxmax()]`: first row attaining the maximum. -/
def maxRow (g : List Row) : Option Row :=
  g.find? (fun r => g.all (fun x => decide (x.swe ≤ r.swe)))

/-- `group.loc[group['swe'].idxmin()]`: first row attaining the minimum. -/
def minRow (g : List Row) : Option Row :=
  g.find? (fun r => g.all (fun x => decide (r.swe ≤ x.swe)))

/-- `group[group['date'] > peak_date]`. -/
def afterPeak (g : List Row) (peakDate : Date) : List Row :=
  g.filter (fun r => decide (toOrdinal peakDate < toOrdinal r.date))

/-- `after_peak[after_peak['swe'] <= peak_value * 0.5].head(1)`. -/
def swe50Row (g : List Row) (peakDate : Date) (peakValue : ℚ) : Option Row :=
  (afterPeak g peakDate).find? (fun r => decide (r.swe ≤ peakValue * (1 / 2)))

/-- `after_peak[after_peak['swe'] <= peak_value * 0.1].head(1)`. -/
def swe10Row (g : List Row) (peakDate : Date) (peakValue : ℚ) : Option Row :=
  (afterPeak g peakDate).find? (fun r => decide (r.swe ≤ peakValue * (1 / 10)))

/-- `(pd.to_datetime(found) - pd.to_datetime(peak_date)).days if found else None`. -/
def meltDuration (peakDate : Date) : Option Row → Option Int
  | none => none
  | some r => some ((toOrdinal r.date : Int) - (toOrdinal peakDate : Int))

/-- Helper for `group['swe'].diff()`: annotate each row after the first
with its difference from the directly preceding row. -/
def withDiffsAux (prev : Row) : List Row → List (Row × Option ℚ)
  | [] => []
  | r :: rs => (r, some (r.swe - prev.swe)) :: withDiffsAux r rs

/-- `group['swe_diff'] = group['swe'].diff()`: the first row's difference
is missing (`NaN`), every later row carries `swe[i] - swe[i-1]`. -/
def withDiffs : List Row → List (Row × Option ℚ)
  | [] => []
  | r :: rs => (r, none) :: withDiffsAux r rs

/-- `diff > 0`; a missing difference (`NaN`) is not greater than zero. -/
def posDiff : Option ℚ → Bool
  | none => false
  | some q => decide (0 < q)

/-- The accumulation-start scan: first `i >= 1` with `swe_diff[i] > 0`. -/
def accStartRow (g : List Row) : Option Row :=
  ((withDiffs g).find? (fun p => posDiff p.2)).map (fun p => p.1)

/-- `group[(group['date'] >= acc_start_date) & (group['date'] <= peak_date)]`,
keeping the whole-year differences of the retained rows. -/
def accumPeriod (g : List Row) (accDate peakDate : Date) : List (Row × Option ℚ) :=
  (withDiffs g).filter (fun p =>
    decide (toOrdinal accDate ≤ toOrdinal p.1.date) &&
    decide (toOrdinal p.1.date ≤ toOrdinal peakDate))

/-- `(accum_period['swe_diff'] > 0).sum()`. -/
def snowfallDays (w : List (Row × Option ℚ)) : Nat :=
  w.countP (fun p => posDiff p.2)

/-- `snowfall_days_accum / len(accum_period) if len(accum_period) > 0 else None`. -/
def percSnowfall (w : List (Row × Option ℚ)) : Option ℚ :=
  if 0 < w.length then some ((snowfallDays w : ℚ) / (w.length : ℚ)) else none

/-- `numpy.argmax`: index of the first occurrence of the maximum;
raises on an empty array, modelled as `none`. -/
def argmaxIdx (l : List ℚ) : Option Nat :=
  (List.range l.length).find? (fun i => l.all (fun x => decide (x ≤ l.getD i 0)))

def sweAt (w : List (Row × Option ℚ)) (i : Nat) : ℚ :=
  (w.getD i default).1.swe

def diffAt (w : List (Row × Option ℚ)) (i : Nat) : Option ℚ :=
  (w.getD i default).2

/-- The constant-snowfall scan over the accumulation window: first index
`i` with `swe_diff[i] > 0` and `(swe_values[i:imax+1] >= swe_values[i]).all()`. -/
def constScan (w : List (Row × Option ℚ)) (imax : Nat) : Option Date :=
  ((List.range w.length).find? (fun i =>
      posDiff (diffAt w i) &&
      (List.range' i (imax + 1 - i)).all (fun j => decide (sweAt w i ≤ sweAt w j)))).map
    (fun i => (w.getD i default).1.date)

/-- Modelled from the spec's wording for claim comparison: the snowpack
is "monotonically non-decreasing" from index `i` to the window peak
`imax`, i.e. every single step up to the peak is non-decreasing. -/
def monoToPeak (w : List (Row × Option ℚ)) (i imax : Nat) : Bool :=
  (List.range' i (imax - i)).all (fun j => decide (sweAt w j ≤ sweAt w (j + 1)))

/-- `group[group['date'].dt.month.isin([6, 7, 8])]`. -/
def summerRows (g : List Row) : List Row :=
  g.filter (fun r => decide (r.date.month = 6 ∨ r.date.month = 7 ∨ r.date.month = 8))

/-- Consecutive pairs of the summer subseries; pair `(prev, cur)` carries
the within-summer difference `cur.swe - prev.swe`. -/
def summerPairs (g : List Row) : List (Row × Row) :=
  (summerRows g).zip (summerRows g).tail

/-- `len(summer[summer['swe_diff'] > 0])`. -/
def summerSnowfallCount (g : List Row) : Nat :=
  (summerPairs g).countP (fun p => decide (p.1.swe < p.2.swe))

/-- `summer_snowfall['swe_diff'].sum()`. -/
def summerSnowfallAcc (g : List Row) : ℚ :=
  (((summerPairs g).filter (fun p => decide (p.1.swe < p.2.swe))).map
    (fun p => p.2.swe - p.1.swe)).sum

inductive Season
  | DJF
  | MAM
  | JJA
  | SON
deriving DecidableEq, Repr

/-- `assign_season`. -/
def assignSeason (m : Nat) : Season :=
  if m = 12 ∨ m = 1 ∨ m = 2 then .DJF
  else if m = 3 ∨ m = 4 ∨ m = 5 then .MAM
  else if m = 6 ∨ m = 7 ∨ m = 8 then .JJA
  else .SON

def seasonRows (g : List Row) (s : Season) : List Row :=
  g.filter (fun r => decide (assignSeason r.date.month = s))

/-- One output row of `calculate_swe_parameters` (the fields the claims
are about); a seasonal field is `none` when the season has no rows. -/
structure SweYearResult where
  maxSwe : ℚ
  dateOfMaxSwe : Date
  timingOfMaxSwe : Int
  minSwe : ℚ
  dateOfMinSwe : Date
  timingOfMinSwe : Int
  meltDurationToSwe50 : Option Int
  dateSwe50 : Option Date
  timingSwe50 : Option Int
  meltDurationToSwe10 : Option Int
  dateSwe10 : Option Date
  timingSwe10 : Option Int
  accumulationStartDate : Option Date
  timingAccumulationStart : Option Int
  accumulationDuration : Option Int
  snowfallDaysAccumulation : Option Nat
  snowfallPercentAccumulation : Option ℚ
  constantSnowfallStartDate : Option Date
  timingConstantSnowfallStart : Option Int
  summerSnowfallAccumulation : ℚ
  numberOfDaysSummerSnowfall : Nat
  seasonMinSwe : Season → Option ℚ
  seasonMaxSwe : Season → Option ℚ
  seasonTimingMaxSwe : Season → Option Int
  seasonTimingMinSwe : Season → Option Int

/-- The result row before the accumulation branch fills in its fields.
Note (lines 151-152 of the source): the seasonal timing fields use the
whole-year `idxmax`/`idxmin` date, not the season-scoped one. -/
def baseRow (g : List Row) (maxR minR : Row) : SweYearResult where
  maxSwe := maxR.swe
  dateOfMaxSwe := maxR.date
  timingOfMaxSwe := dayInHydroYear maxR.date 9
  minSwe := minR.swe
  dateOfMinSwe := minR.date
  timingOfMinSwe := dayInHydroYear minR.date 9
  meltDurationToSwe50 := meltDuration maxR.date (swe50Row g maxR.date maxR.swe)
  dateSwe50 := (swe50Row g maxR.date maxR.swe).map (fun r => r.date)
  timingSwe50 := (swe50Row g maxR.date maxR.swe).map (fun r => dayInHydroYear r.date 9)
  meltDurationToSwe10 := meltDuration maxR.date (swe10Row g maxR.date maxR.swe)
  dateSwe10 := (swe10Row g maxR.date maxR.swe).map (fun r => r.date)
  timingSwe10 := (swe10Row g maxR.date maxR.swe).map (fun r => dayInHydroYear r.date 9)
  accumulationStartDate := none
  timingAccumulationStart := none
  accumulationDuration := none
  snowfallDaysAccumulation := none
  snowfallPercentAccumulation := none
  constantSnowfallStartDate := none
  timingConstantSnowfallStart := none
  summerSnowfallAccumulation := summerSnowfallAcc g
  numberOfDaysSummerSnowfall := summerSnowfallCount g
  seasonMinSwe := fun s =>
    if seasonRows g s = [] then none else ((seasonRows g s).map (fun r => r.swe)).min?
  seasonMaxSwe := fun s =>
    if seasonRows g s = [] then none else ((seasonRows g s).map (fun r => r.swe)).max?
  seasonTimingMaxSwe := fun s =>
    if seasonRows g s = [] then none else some (dayInHydroYear maxR.date 9)
  seasonTimingMinSwe := fun s =>
    if seasonRows g s = [] then none else some (dayInHydroYear minR.date 9)

/-- One iteration of the per-hydro-year loop of `calculate_swe_parameters`:
`Except.error` models an uncaught Python exception (`idxmax` of an empty
series; `numpy.argmax` of an empty array in the constant-snowfall step). -/
def calcSweRow (g : List Row) : Except String SweYearResult :=
  match maxRow g, minRow g with
  | some maxR, some minR =>
    match accStartRow g with
    | none => .ok (baseRow g maxR minR)
    | some aR =>
      let w := accumPeriod g aR.date maxR.date
      match argmaxIdx (w.map (fun p => p.1.swe)) with
      | none => .error "attempt to get argmax of an empty sequence"
      | some imax =>
        .ok { baseRow g maxR minR with
              accumulationStartDate := some aR.date
              timingAccumulationStart := some (dayInHydroYear aR.date 9)
              accumulationDuration :=
                some ((toOrdinal maxR.date : Int) - (toOrdinal aR.date : Int))
              snowfallDaysAccumulation := some (snowfallDays w)
              snowfallPercentAccumulation := percSnowfall w
              constantSnowfallStartDate := constScan w imax
              timingConstantSnowfallStart :=
                (constScan w imax).map (fun dt => dayInHydroYear dt 9) }
  | _, _ => .error "idxmax of empty series"

/-- Modelled from the spec for comparison with the code ("Seasonal SWE
extrema (DJF/MAM/JJA/SON): min/max value and their hydro-day timing, via
Extremum-with-timing scoped to season"): the hydro-day of the date at
which SWE attains its maximum within the season's rows only. -/
def seasonTimingMaxScoped (g : List Row) (s : Season) : Option Int :=
  (maxRow (seasonRows g s)).map (fun r => dayInHydroYear r.date 9)

/-- Season-scoped minimum timing, modelled from the spec (see
`seasonTimingMaxScoped`). -/
def seasonTimingMinScoped (g : List Row) (s : Season) : Option Int :=
  (minRow (seasonRows g s)).map (fun r => dayInHydroYear r.date 9)

/-! ## Trend estimator (`trend_statistics.py`)

`calculate_trends` processes each `(basin, column)` pair independently:
drop missing values, and with fewer than 3 remaining points emit a row
of nulls with `significant = False`.  The external statistics routines
(`scipy.stats.theilslopes`, `pymannkendall.original_test`) are
collaborators, modelled as an abstract backend that is only consulted on
series of length at least 3. -/

structure TrendBackend where
  theilSlope : List (Int × ℚ) → ℚ
  theilIntercept : List (Int × ℚ) → ℚ
  mkPValue : List ℚ → ℚ

/-- `series = basin_data[var].dropna()` paired with its year column. -/
def dropna (l : List (Int × Option ℚ)) : List (Int × ℚ) :=
  l.filterMap (fun p => p.2.map (fun v => (p.1, v)))

structure TrendRow where
  slope : Option ℚ
  intercept : Option ℚ
  pValue : Option ℚ
  significant : Bool
  mean : Option ℚ
  trendPercent : Option ℚ
deriving DecidableEq

/-- The body of the per-(basin, column) loop of `calculate_trends`. -/
def calculateTrendRow (B : TrendBackend) (alpha : ℚ)
    (data : List (Int × Option ℚ)) : TrendRow :=
  let series := dropna data
  if series.length < 3 then
    ⟨none, none, none, false, none, none⟩
  else
    let slope := B.theilSlope series
    let p := B.mkPValue (series.map (fun q => q.2))
    let avg := (series.map (fun q => q.2)).sum / (series.length : ℚ)
    ⟨some slope, some (B.theilIntercept series), some p, decide (p < alpha), some avg,
      if avg ≠ 0 then some (slope / avg) else none⟩

/-! ## Precipitation concentration index (`precipitation_parameters.py`)

Monthly sums are taken over the calendar months present in the group;
the PCI of line 189 divides the sum of squared monthly sums by itself. -/

structure PRow where
  date : Date
  value : ℚ
deriving DecidableEq

def monthRows (g : List PRow) (m : Nat) : List PRow :=
  g.filter (fun r => decide (r.date.month = m))

def monthSum (g : List PRow) (m : Nat) : ℚ :=
  ((monthRows g m).map (fun r => r.value)).sum

/-- The keys of `monthly_data` / `valid_month_sums`: calendar months with
at least one observation in the group. -/
def monthsPresent (g : List PRow) : List Nat :=
  (List.range' 1 12).filter (fun m => !(monthRows g m).isEmpty)

def validMonthSums (g : List PRow) : List ℚ :=
  (monthsPresent g).map (monthSum g)

/-- `100 * (np.sum((arr*1000)**2) / (np.sum((arr*1000)**2)))`. -/
def pci (sums : List ℚ) : ℚ :=
  100 * ((sums.map (fun x => (x * 1000) ^ 2)).sum /
    (sums.map (fun x => (x * 1000) ^ 2)).sum)

/-- `row["pci"]`: computed only when `valid_month_sums` is non-empty. -/
def pciOf (g : List PRow) : Option ℚ :=
  if monthsPresent g = [] then none else some (pci (validMonthSums g))

/-! ## Concrete example groups used by counterexamples and failing inputs -/

/-- A sorted hydro-year group whose first strictly positive day-over-day
difference (2022-01-03) comes after the peak date (2022-01-01). -/
def cexAccGroup : List Row :=
  [⟨⟨2022, 1, 1⟩, 10⟩, ⟨⟨2022, 1, 2⟩, 5⟩, ⟨⟨2022, 1, 3⟩, 6⟩]

/-- A sorted group whose accumulation window is `[0, 1, 3, 2, 4]`: the
constant-snowfall scan accepts its first day although the snowpack dips
from 3 to 2 on the way to the peak. -/
def cexConstGroup : List Row :=
  [⟨⟨2022, 1, 1⟩, 0⟩, ⟨⟨2022, 1, 2⟩, 1⟩, ⟨⟨2022, 1, 3⟩, 3⟩,
   ⟨⟨2022, 1, 4⟩, 2⟩, ⟨⟨2022, 1, 5⟩, 4⟩]

/-- The accumulation window of `cexConstGroup` (accumulation start
2022-01-02 through peak 2022-01-05). -/
def cexConstWindow : List (Row × Option ℚ) :=
  accumPeriod cexConstGroup ⟨2022, 1, 2⟩ ⟨2022, 1, 5⟩

/-- A hydro-year 2022 group whose annual maximum (2021-12-15, DJF) and
JJA maximum (2022-06-10) fall on different dates. -/
def bugSeasonGroup : List Row :=
  [⟨⟨2021, 12, 15⟩, 10⟩, ⟨⟨2022, 6, 10⟩, 2⟩]

/-- Witness group for the melt-threshold claim: single peak 4 on
2022-01-02, then values 3, 2, 0. -/
def meltWitnessGroup : List Row :=
  [⟨⟨2022, 1, 1⟩, 1⟩, ⟨⟨2022, 1, 2⟩, 4⟩, ⟨⟨2022, 1, 3⟩, 3⟩,
   ⟨⟨2022, 1, 4⟩, 2⟩, ⟨⟨2022, 1, 5⟩, 0⟩]

end SweStats

open SweStats

/-! ## Generic list lemmas used by the claim proofs -/

namespace SweStats

/-- A successful `find?` splits the list at the first hit. -/
lemma find?_decomp {α : Type} {p : α → Bool} {l : List α} {b : α}
    (h : l.find? p = some b) :
    ∃ l1 l2, l = l1 ++ b :: l2 ∧ (∀ x ∈ l1, p x = false) ∧ p b = true := by
  induction l with
  | nil => simp at h
  | cons a as ih =>
    by_cases hpa : p a
    · refine ⟨[], as, ?_, by simp, ?_⟩
      · rw [List.find?_cons_of_pos _ hpa] at h
        simp_all
      · rw [List.find?_cons_of_pos _ hpa] at h
        cases h
        exact hpa
    · rw [List.find?_cons_of_neg _ hpa] at h
      obtain ⟨l1, l2, rfl, hl1, hb⟩ := ih h
      exact ⟨a :: l1, l2, rfl, by
        intro x hx
        rcases List.mem_cons.mp hx with rfl | hx
        · exact Bool.eq_false_iff.mpr hpa
        · exact hl1 x hx, hb⟩

/-- Index form of a successful `find?`: the hit sits at an index all of
whose predecessors fail the predicate. -/
lemma find?_idx {α : Type} [Inhabited α] {p : α → Bool} {l : List α} {b : α}
    (h : l.find? p = some b) :
    ∃ i, i < l.length ∧ l.getD i default = b ∧ p b = true ∧
      ∀ j, j < i → p (l.getD j default) = false := by
  induction l with
  | nil => simp at h
  | cons a as ih =>
    by_cases hpa : p a
    · rw [List.find?_cons_of_pos _ hpa] at h
      cases h
      exact ⟨0, by simp, rfl, hpa, by omega⟩
    · rw [List.find?_cons_of_neg _ hpa] at h
      obtain ⟨i, hi, hget, hpb, hpred⟩ := ih h
      refine ⟨i + 1, by simpa using hi, by simpa using hget, hpb, ?_⟩
      intro j hj
      cases j with
      | zero => simpa using Bool.eq_false_iff.mpr hpa
      | succ n => simpa using hpred n (by omega)

/-- In a list that is pairwise strictly increasing on a key, anything
with a key below the `find?` hit's key fails the predicate. -/
lemma find?_first_key {p : Row → Bool} {l : List Row} {b : Row}
    (hp : l.Pairwise (fun a c => toOrdinal a.date < toOrdinal c.date))
    (h : l.find? p = some b) :
    b ∈ l ∧ p b = true ∧
      ∀ x ∈ l, toOrdinal x.date < toOrdinal b.date → p x = false := by
  obtain ⟨l1, l2, rfl, hl1, hb⟩ := find?_decomp h
  refine ⟨by simp, hb, ?_⟩
  intro x hx hlt
  rw [List.pairwise_append] at hp
  rcases List.mem_append.mp hx with hx1 | hx2
  · exact hl1 x hx1
  · rcases List.mem_cons.mp hx2 with rfl | hx2
    · omega
    · have := (List.pairwise_cons.mp hp.2.1).1 x hx2
      omega

/-- A nonempty group has a row on which SWE is maximal. -/
lemma exists_max_row (g : List Row) (h : g ≠ []) :
    ∃ r ∈ g, ∀ x ∈ g, x.swe ≤ r.swe := by
  induction g with
  | nil => simp at h
  | cons a as ih =>
    rcases eq_or_ne as [] with rfl | hne
    · exact ⟨a, by simp, by simp⟩
    · obtain ⟨r, hr, hmax⟩ := ih hne
      rcases le_total r.swe a.swe with hle | hle
      · exact ⟨a, by simp, by
          intro x hx
          rcases List.mem_cons.mp hx with rfl | hx
          · exact le_refl _
          · exact (hmax x hx).trans hle⟩
      · exact ⟨r, List.mem_cons_of_mem _ hr, by
          intro x hx
          rcases List.mem_cons.mp hx with rfl | hx
          · exact hle
          · exact hmax x hx⟩

/-- A nonempty group has a row on which SWE is minimal. -/
lemma exists_min_row (g : List Row) (h : g ≠ []) :
    ∃ r ∈ g, ∀ x ∈ g, r.swe ≤ x.swe := by
  induction g with
  | nil => simp at h
  | cons a as ih =>
    rcases eq_or_ne as [] with rfl | hne
    · exact ⟨a, by simp, by simp⟩
    · obtain ⟨r, hr, hmin⟩ := ih hne
      rcases le_total a.swe r.swe with hle | hle
      · exact ⟨a, by simp, by
          intro x hx
          rcases List.mem_cons.mp hx with rfl | hx
          · exact le_refl _
          · exact hle.trans (hmin x hx)⟩
      · exact ⟨r, List.mem_cons_of_mem _ hr, by
          intro x hx
          rcases List.mem_cons.mp hx with rfl | hx
          · exact hle
          · exact hmin x hx⟩

/-- `maxRow` succeeds on every nonempty group. -/
lemma maxRow_isSome (g : List Row) (h : g ≠ []) : ∃ r, maxRow g = some r := by
  obtain ⟨r, hr, hmax⟩ := exists_max_row g h
  have : (g.find? (fun r => g.all (fun x => decide (x.swe ≤ r.swe)))).isSome := by
    rw [List.find?_isSome]
    exact ⟨r, hr, by simpa [List.all_eq_true] using hmax⟩
  rcases hfind : g.find? (fun r => g.all (fun x => decide (x.swe ≤ r.swe))) with _ | r0
  · rw [hfind] at this
    simp at this
  · exact ⟨r0, hfind⟩

/-- `minRow` succeeds on every nonempty group. -/
lemma minRow_isSome (g : List Row) (h : g ≠ []) : ∃ r, minRow g = some r := by
  obtain ⟨r, hr, hmin⟩ := exists_min_row g h
  have : (g.find? (fun r => g.all (fun x => decide (r.swe ≤ x.swe)))).isSome := by
    rw [List.find?_isSome]
    exact ⟨r, hr, by simpa [List.all_eq_true] using hmin⟩
  rcases hfind : g.find? (fun r => g.all (fun x => decide (r.swe ≤ x.swe))) with _ | r0
  · rw [hfind] at this
    simp at this
  · exact ⟨r0, hfind⟩

/-- What a successful `maxRow` returns: a member on which SWE is maximal. -/
lemma maxRow_spec {g : List Row} {r : Row} (h : maxRow g = some r) :
    r ∈ g ∧ ∀ x ∈ g, x.swe ≤ r.swe := by
  have h1 := List.find?_some h
  have h2 := List.mem_of_find?_eq_some h
  exact ⟨h2, by simpa [List.all_eq_true] using h1⟩

end SweStats

namespace SweStats

/-! ## Structure of `withDiffs` -/

lemma withDiffsAux_length (prev : Row) (g : List Row) :
    (withDiffsAux prev g).length = g.length := by
  induction g generalizing prev with
  | nil => rfl
  | cons r rs ih => simp [withDiffsAux, ih]

lemma withDiffs_length (g : List Row) : (withDiffs g).length = g.length := by
  cases g with
  | nil => rfl
  | cons r rs => simp [withDiffs, withDiffsAux_length]

lemma withDiffsAux_getD (prev : Row) (g : List Row) (i : Nat) (hi : i < g.length) :
    (withDiffsAux prev g).getD i default =
      (g.getD i default,
        some ((g.getD i default).swe - ((prev :: g).getD i default).swe)) := by
  induction g generalizing prev i with
  | nil => simp at hi
  | cons r rs ih =>
    cases i with
    | zero => simp [withDiffsAux]
    | succ n =>
      simp only [withDiffsAux, List.getD_cons_succ]
      exact ih r n (by simpa using hi)

lemma withDiffs_getD_zero (g : List Row) (h : g ≠ []) :
    (withDiffs g).getD 0 default = (g.getD 0 default, none) := by
  cases g with
  | nil => simp at h
  | cons r rs => rfl

lemma withDiffs_getD_succ (g : List Row) (n : Nat) (h : n + 1 < g.length) :
    (withDiffs g).getD (n + 1) default =
      (g.getD (n + 1) default,
        some ((g.getD (n + 1) default).swe - (g.getD n default).swe)) := by
  cases g with
  | nil => simp at h
  | cons r rs =>
    simp only [withDiffs, List.getD_cons_succ]
    rw [withDiffsAux_getD r rs n (by simpa using h)]

end SweStats

/-- C2: the accumulation start is the first row, scanning forward from
the second observation, whose day-over-day SWE difference is strictly
positive (every earlier candidate from the second observation on has a
non-positive difference); when no observation has a strictly positive
difference, the accumulation start and all accumulation-dependent output
fields of the result row are null. -/
theorem claim_C2_accumulation_start (g : List Row) (hne : g ≠ []) :
    (∀ r, accStartRow g = some r →
        (∃ i, 1 ≤ i ∧ i < g.length ∧ r = g.getD i default ∧
          (g.getD (i - 1) default).swe < (g.getD i default).swe ∧
          ∀ j, 1 ≤ j → j < i →
            (g.getD j default).swe ≤ (g.getD (j - 1) default).swe) ∧
        ∀ res, calcSweRow g = .ok res → res.accumulationStartDate = some r.date) ∧
    (accStartRow g = none →
        (∀ j, 1 ≤ j → j < g.length →
          (g.getD j default).swe ≤ (g.getD (j - 1) default).swe) ∧
        ∃ res, calcSweRow g = .ok res ∧
          res.accumulationStartDate = none ∧
          res.timingAccumulationStart = none ∧
          res.accumulationDuration = none ∧
          res.snowfallDaysAccumulation = none ∧
          res.snowfallPercentAccumulation = none ∧
          res.constantSnowfallStartDate = none ∧
          res.timingConstantSnowfallStart = none) := by
  obtain ⟨maxR, hmax⟩ := maxRow_isSome g hne
  obtain ⟨minR, hmin⟩ := minRow_isSome g hne
  constructor
  · intro r hr
    constructor
    · rcases hfind : (withDiffs g).find? (fun p => posDiff p.2) with _ | pr
      · unfold accStartRow at hr
        rw [hfind] at hr
        simp at hr
      · unfold accStartRow at hr
        rw [hfind] at hr
        simp only [Option.map_some', Option.some.injEq] at hr
        subst hr
        obtain ⟨i, hi, hget, hppr, hpred⟩ := find?_idx hfind
        have hlen := withDiffs_length g
        have hi0 : i ≠ 0 := by
          rintro rfl
          rw [withDiffs_getD_zero g hne] at hget
          rw [← hget] at hppr
          simp [posDiff] at hppr
        obtain ⟨n, rfl⟩ : ∃ n, i = n + 1 := ⟨i - 1, by omega⟩
        rw [withDiffs_getD_succ g n (by omega)] at hget
        refine ⟨n + 1, by omega, by omega, ?_, ?_, ?_⟩
        · rw [← hget]
        · rw [← hget] at hppr
          simp only [posDiff, decide_eq_true_eq] at hppr
          simp only [Nat.add_sub_cancel]
          linarith
        · intro j hj1 hj2
          have hpj := hpred j (by omega)
          obtain ⟨m, rfl⟩ : ∃ m, j = m + 1 := ⟨j - 1, by omega⟩
          rw [withDiffs_getD_succ g m (by omega)] at hpj
          simp only [posDiff, decide_eq_false_iff_not, not_lt] at hpj
          simpa using sub_nonpos.mp hpj
    · intro res hres
      simp only [calcSweRow, hmax, hmin, hr] at hres
      rcases hargm : argmaxIdx ((accumPeriod g r.date maxR.date).map (fun p => p.1.swe))
        with _ | imax
      · rw [hargm] at hres
        simp at hres
      · rw [hargm] at hres
        simp only [Except.ok.injEq] at hres
        rw [← hres]
  · intro hnone
    have hfind : (withDiffs g).find? (fun p => posDiff p.2) = none := by
      rcases hfind : (withDiffs g).find? (fun p => posDiff p.2) with _ | pr
      · exact hfind
      · unfold accStartRow at hnone
        rw [hfind] at hnone
        simp at hnone
    rw [List.find?_eq_none] at hfind
    constructor
    · intro j hj1 hj2
      obtain ⟨m, rfl⟩ : ∃ m, j = m + 1 := ⟨j - 1, by omega⟩
      have hmem : (withDiffs g).getD (m + 1) default ∈ withDiffs g := by
        rw [List.getD_eq_getElem _ _ (by rw [withDiffs_length]; omega)]
        exact List.getElem_mem _
      have hpj := hfind _ hmem
      rw [withDiffs_getD_succ g m (by omega)] at hpj
      simp only [posDiff, decide_eq_true_eq, not_lt] at hpj
      simpa using sub_nonpos.mp hpj
    · have hacc : accStartRow g = none := by
        unfold accStartRow
        rw [List.find?_eq_none.mpr hfind]
        rfl
      refine ⟨baseRow g maxR minR, ?_, rfl, rfl, rfl, rfl, rfl, rfl, rfl⟩
      simp only [calcSweRow, hmax, hmin, hacc]

/-- Witness for C2: a series flat at 0 for two days and rising on the
third has its accumulation start on the third day. -/
theorem claim_C2_witness :
    ([⟨⟨2022, 1, 1⟩, 0⟩, ⟨⟨2022, 1, 2⟩, 0⟩, ⟨⟨2022, 1, 3⟩, 1⟩] : List Row) ≠ [] ∧
    accStartRow [⟨⟨2022, 1, 1⟩, 0⟩, ⟨⟨2022, 1, 2⟩, 0⟩, ⟨⟨2022, 1, 3⟩, 1⟩] =
      some ⟨⟨2022, 1, 3⟩, 1⟩ ∧
    (∃ i, 1 ≤ i ∧
      i < ([⟨⟨2022, 1, 1⟩, 0⟩, ⟨⟨2022, 1, 2⟩, 0⟩, ⟨⟨2022, 1, 3⟩, 1⟩] : List Row).length ∧
      (⟨⟨2022, 1, 3⟩, 1⟩ : Row) =
        ([⟨⟨2022, 1, 1⟩, 0⟩, ⟨⟨2022, 1, 2⟩, 0⟩, ⟨⟨2022, 1, 3⟩, 1⟩] : List Row).getD i default ∧
      (([⟨⟨2022, 1, 1⟩, 0⟩, ⟨⟨2022, 1, 2⟩, 0⟩, ⟨⟨2022, 1, 3⟩, 1⟩] : List Row).getD (i - 1) default).swe <
        (([⟨⟨2022, 1, 1⟩, 0⟩, ⟨⟨2022, 1, 2⟩, 0⟩, ⟨⟨2022, 1, 3⟩, 1⟩] : List Row).getD i default).swe ∧
      ∀ j, 1 ≤ j → j < i →
        (([⟨⟨2022, 1, 1⟩, 0⟩, ⟨⟨2022, 1, 2⟩, 0⟩, ⟨⟨2022, 1, 3⟩, 1⟩] : List Row).getD j default).swe ≤
        (([⟨⟨2022, 1, 1⟩, 0⟩, ⟨⟨2022, 1, 2⟩, 0⟩, ⟨⟨2022, 1, 3⟩, 1⟩] : List Row).getD (j - 1) default).swe) := by
  refine ⟨by decide, ?_, ?_⟩
  · norm_num +decide [accStartRow, withDiffs, withDiffsAux, posDiff, List.find?]
  · exact ((claim_C2_accumulation_start
        [⟨⟨2022, 1, 1⟩, 0⟩, ⟨⟨2022, 1, 2⟩, 0⟩, ⟨⟨2022, 1, 3⟩, 1⟩] (by decide)).1
        ⟨⟨2022, 1, 3⟩, 1⟩
        (by norm_num +decide [accStartRow, withDiffs, withDiffsAux, posDiff, List.find?])).1

namespace SweStats

/-- Decomposition of a threshold search over `after_peak`: the hit is a
group member strictly after the peak, satisfies the threshold, and every
group member strictly between the peak date and the hit fails it. -/
lemma threshold_find_spec (g : List Row) (hs : SortedByDate g) (peakDate : Date)
    (c : ℚ) {r : Row}
    (h : (afterPeak g peakDate).find? (fun x => decide (x.swe ≤ c)) = some r) :
    r ∈ g ∧ toOrdinal peakDate < toOrdinal r.date ∧ r.swe ≤ c ∧
      ∀ x ∈ g, toOrdinal peakDate < toOrdinal x.date →
        toOrdinal x.date < toOrdinal r.date → ¬(x.swe ≤ c) := by
  have hp : (afterPeak g peakDate).Pairwise
      (fun a b => toOrdinal a.date < toOrdinal b.date) :=
    hs.sublist (List.filter_sublist _)
  obtain ⟨hmem, hpr, hfirst⟩ := find?_first_key hp h
  have hmem2 := List.mem_filter.mp hmem
  refine ⟨hmem2.1, by simpa using hmem2.2, by simpa using hpr, ?_⟩
  intro x hx hafter hbefore
  have hxin : x ∈ afterPeak g peakDate :=
    List.mem_filter.mpr ⟨hx, by simpa using hafter⟩
  simpa using hfirst x hxin hbefore

/-- A failed threshold search over `after_peak`: every group member
strictly after the peak stays above the threshold. -/
lemma threshold_find_none (g : List Row) (peakDate : Date) (c : ℚ)
    (h : (afterPeak g peakDate).find? (fun x => decide (x.swe ≤ c)) = none) :
    ∀ x ∈ g, toOrdinal peakDate < toOrdinal x.date → c < x.swe := by
  rw [List.find?_eq_none] at h
  intro x hx hafter
  have := h x (List.mem_filter.mpr ⟨hx, by simpa using hafter⟩)
  simpa [not_le] using this

end SweStats

/-- C1: per hydro-year group, the melt search restricts to dates
strictly after the (first-attained) annual-maximum date; `swe50_date`
(resp. `swe10_date`) is the first such date with SWE at most half (resp.
a tenth) of the peak value, every strictly earlier post-peak date
exceeds that threshold; the reported duration is the found date minus
the peak date in days, and date and duration are both null when the
threshold is never reached before the series ends. -/
theorem claim_C1_melt_thresholds (g : List Row) (hs : SortedByDate g) (hne : g ≠ []) :
    ∃ maxR, maxRow g = some maxR ∧ maxR ∈ g ∧ (∀ x ∈ g, x.swe ≤ maxR.swe) ∧
      (∀ r, swe50Row g maxR.date maxR.swe = some r →
        r ∈ g ∧ toOrdinal maxR.date < toOrdinal r.date ∧
          r.swe ≤ maxR.swe * (1 / 2) ∧
          ∀ x ∈ g, toOrdinal maxR.date < toOrdinal x.date →
            toOrdinal x.date < toOrdinal r.date → ¬(x.swe ≤ maxR.swe * (1 / 2))) ∧
      (swe50Row g maxR.date maxR.swe = none →
        ∀ x ∈ g, toOrdinal maxR.date < toOrdinal x.date → maxR.swe * (1 / 2) < x.swe) ∧
      meltDuration maxR.date (swe50Row g maxR.date maxR.swe) =
        (swe50Row g maxR.date maxR.swe).map
          (fun r => (toOrdinal r.date : Int) - (toOrdinal maxR.date : Int)) ∧
      (∀ r, swe10Row g maxR.date maxR.swe = some r →
        r ∈ g ∧ toOrdinal maxR.date < toOrdinal r.date ∧
          r.swe ≤ maxR.swe * (1 / 10) ∧
          ∀ x ∈ g, toOrdinal maxR.date < toOrdinal x.date →
            toOrdinal x.date < toOrdinal r.date → ¬(x.swe ≤ maxR.swe * (1 / 10))) ∧
      (swe10Row g maxR.date maxR.swe = none →
        ∀ x ∈ g, toOrdinal maxR.date < toOrdinal x.date → maxR.swe * (1 / 10) < x.swe) ∧
      meltDuration maxR.date (swe10Row g maxR.date maxR.swe) =
        (swe10Row g maxR.date maxR.swe).map
          (fun r => (toOrdinal r.date : Int) - (toOrdinal maxR.date : Int)) ∧
      ∀ res, calcSweRow g = .ok res →
        res.dateSwe50 = (swe50Row g maxR.date maxR.swe).map (fun r => r.date) ∧
        res.meltDurationToSwe50 = meltDuration maxR.date (swe50Row g maxR.date maxR.swe) ∧
        res.dateSwe10 = (swe10Row g maxR.date maxR.swe).map (fun r => r.date) ∧
        res.meltDurationToSwe10 = meltDuration maxR.date (swe10Row g maxR.date maxR.swe) := by
  obtain ⟨maxR, hmax⟩ := maxRow_isSome g hne
  obtain ⟨minR, hmin⟩ := minRow_isSome g hne
  obtain ⟨hmem, hispeak⟩ := maxRow_spec hmax
  refine ⟨maxR, hmax, hmem, hispeak, ?_, ?_, ?_, ?_, ?_, ?_, ?_⟩
  · intro r hr
    unfold swe50Row at hr
    exact threshold_find_spec g hs maxR.date _ hr
  · intro hnone
    unfold swe50Row at hnone
    exact threshold_find_none g maxR.date _ hnone
  · cases hsw : swe50Row g maxR.date maxR.swe <;> simp [meltDuration, hsw]
  · intro r hr
    unfold swe10Row at hr
    exact threshold_find_spec g hs maxR.date _ hr
  · intro hnone
    unfold swe10Row at hnone
    exact threshold_find_none g maxR.date _ hnone
  · cases hsw : swe10Row g maxR.date maxR.swe <;> simp [meltDuration, hsw]
  · intro res hres
    rcases hacc : accStartRow g with _ | aR
    · simp only [calcSweRow, hmax, hmin, hacc, Except.ok.injEq] at hres
      rw [← hres]
      exact ⟨rfl, rfl, rfl, rfl⟩
    · rcases hargm : argmaxIdx ((accumPeriod g aR.date maxR.date).map (fun p => p.1.swe))
        with _ | imax
      · simp [calcSweRow, hmax, hmin, hacc, hargm] at hres
      · simp only [calcSweRow, hmax, hmin, hacc, hargm, Except.ok.injEq] at hres
        rw [← hres]
        exact ⟨rfl, rfl, rfl, rfl⟩

/-- Witness for C1 on `meltWitnessGroup`: peak 4 on 2022-01-02; the 50%
threshold (value 2) is first reached on 2022-01-04, the 10% threshold
(value 0.4) on 2022-01-05. -/
theorem claim_C1_witness :
    (SortedByDate meltWitnessGroup ∧ meltWitnessGroup ≠ []) ∧
    (∃ maxR, maxRow meltWitnessGroup = some maxR ∧ maxR ∈ meltWitnessGroup ∧
      (∀ x ∈ meltWitnessGroup, x.swe ≤ maxR.swe) ∧
      (∀ r, swe50Row meltWitnessGroup maxR.date maxR.swe = some r →
        r ∈ meltWitnessGroup ∧ toOrdinal maxR.date < toOrdinal r.date ∧
          r.swe ≤ maxR.swe * (1 / 2) ∧
          ∀ x ∈ meltWitnessGroup, toOrdinal maxR.date < toOrdinal x.date →
            toOrdinal x.date < toOrdinal r.date → ¬(x.swe ≤ maxR.swe * (1 / 2))) ∧
      (swe50Row meltWitnessGroup maxR.date maxR.swe = none →
        ∀ x ∈ meltWitnessGroup, toOrdinal maxR.date < toOrdinal x.date →
          maxR.swe * (1 / 2) < x.swe) ∧
      meltDuration maxR.date (swe50Row meltWitnessGroup maxR.date maxR.swe) =
        (swe50Row meltWitnessGroup maxR.date maxR.swe).map
          (fun r => (toOrdinal r.date : Int) - (toOrdinal maxR.date : Int)) ∧
      (∀ r, swe10Row meltWitnessGroup maxR.date maxR.swe = some r →
        r ∈ meltWitnessGroup ∧ toOrdinal maxR.date < toOrdinal r.date ∧
          r.swe ≤ maxR.swe * (1 / 10) ∧
          ∀ x ∈ meltWitnessGroup, toOrdinal maxR.date < toOrdinal x.date →
            toOrdinal x.date < toOrdinal r.date → ¬(x.swe ≤ maxR.swe * (1 / 10))) ∧
      (swe10Row meltWitnessGroup maxR.date maxR.swe = none →
        ∀ x ∈ meltWitnessGroup, toOrdinal maxR.date < toOrdinal x.date →
          maxR.swe * (1 / 10) < x.swe) ∧
      meltDuration maxR.date (swe10Row meltWitnessGroup maxR.date maxR.swe) =
        (swe10Row meltWitnessGroup maxR.date maxR.swe).map
          (fun r => (toOrdinal r.date : Int) - (toOrdinal maxR.date : Int)) ∧
      ∀ res, calcSweRow meltWitnessGroup = .ok res →
        res.dateSwe50 =
          (swe50Row meltWitnessGroup maxR.date maxR.swe).map (fun r => r.date) ∧
        res.meltDurationToSwe50 =
          meltDuration maxR.date (swe50Row meltWitnessGroup maxR.date maxR.swe) ∧
        res.dateSwe10 =
          (swe10Row meltWitnessGroup maxR.date maxR.swe).map (fun r => r.date) ∧
        res.meltDurationToSwe10 =
          meltDuration maxR.date (swe10Row meltWitnessGroup maxR.date maxR.swe)) :=
  ⟨⟨by decide, by decide⟩,
    claim_C1_melt_thresholds meltWitnessGroup (by decide) (by decide)⟩

namespace SweStats

/-! ## Scans over index ranges -/

lemma find?_range_idx {p : Nat → Bool} {n i : Nat}
    (h : (List.range n).find? p = some i) :
    i < n ∧ p i = true ∧ ∀ k, k < i → p k = false := by
  obtain ⟨j, hj, hget, hpi, hpred⟩ := find?_idx h
  have hlen : (List.range n).length = n := List.length_range n
  have hgetj : (List.range n).getD j default = j := by
    rw [List.getD_eq_getElem _ _ hj, List.getElem_range]
  rw [hgetj] at hget
  subst hget
  refine ⟨by omega, hpi, ?_⟩
  intro k hk
  have hk2 := hpred k hk
  have hgetk : (List.range n).getD k default = k := by
    rw [List.getD_eq_getElem _ _ (by omega), List.getElem_range]
  rwa [hgetk] at hk2

lemma find?_range_none {p : Nat → Bool} {n : Nat}
    (h : (List.range n).find? p = none) : ∀ k, k < n → p k = false := by
  rw [List.find?_eq_none] at h
  intro k hk
  simpa using h k (List.mem_range.mpr hk)

lemma map_swe_getD (w : List (Row × Option ℚ)) (j : Nat) (hj : j < w.length) :
    (w.map (fun p => p.1.swe)).getD j 0 = sweAt w j := by
  rw [List.getD_eq_getElem _ _ (by simpa using hj), List.getElem_map]
  rw [sweAt, List.getD_eq_getElem _ _ hj]

/-- The slice condition of the constant-snowfall scan, as a bounded
universal over window indices. -/
lemma constCond_iff (w : List (Row × Option ℚ)) (imax i : Nat) :
    ((List.range' i (imax + 1 - i)).all
        (fun j => decide (sweAt w i ≤ sweAt w j)) = true) ↔
      ∀ j, i ≤ j → j ≤ imax → sweAt w i ≤ sweAt w j := by
  rw [List.all_eq_true]
  constructor
  · intro hall j hij hjm
    have hjmem : j ∈ List.range' i (imax + 1 - i) := by
      rw [List.mem_range'_1]
      omega
    simpa using hall j hjmem
  · intro hcond j hj
    rw [List.mem_range'_1] at hj
    simp only [decide_eq_true_eq]
    exact hcond j hj.1 (by omega)

end SweStats

/-- C9 (amended): when the first strictly positive day-over-day
difference falls on a date after the peak date, that date is still the
accumulation start, the accumulation duration (peak minus start, in
days) is negative, the accumulation window is empty so its snowfall-day
count is 0 and its snowfall fraction is null as intermediate values, but
the constant-snowfall step then takes a `numpy.argmax` of the empty
window, so the group raises an uncaught error instead of producing a
result row. -/
theorem claim_C9_acc_start_after_peak (g : List Row) {maxR aR : Row}
    (hmax : maxRow g = some maxR) (hacc : accStartRow g = some aR)
    (hlate : toOrdinal maxR.date < toOrdinal aR.date) :
    accumPeriod g aR.date maxR.date = [] ∧
    ((toOrdinal maxR.date : Int) - (toOrdinal aR.date : Int)) < 0 ∧
    snowfallDays (accumPeriod g aR.date maxR.date) = 0 ∧
    percSnowfall (accumPeriod g aR.date maxR.date) = none ∧
    calcSweRow g = .error "attempt to get argmax of an empty sequence" := by
  have hempty : accumPeriod g aR.date maxR.date = [] := by
    unfold accumPeriod
    rw [List.filter_eq_nil]
    intro p hp
    simp only [Bool.and_eq_true, decide_eq_true_eq, not_and]
    intro h1 h2
    omega
  refine ⟨hempty, by omega, by rw [hempty]; rfl, by rw [hempty]; rfl, ?_⟩
  have hne : g ≠ [] := by
    rintro rfl
    simp [maxRow] at hmax
  obtain ⟨minR, hmin⟩ := minRow_isSome g hne
  have hargm : argmaxIdx ((accumPeriod g aR.date maxR.date).map (fun p => p.1.swe)) =
      none := by
    rw [hempty]
    rfl
  simp only [calcSweRow, hmax, hmin, hacc, hargm]

/-- Counterexample for C9 as stated: on `cexAccGroup` the accumulation
start (2022-01-03) follows the peak (2022-01-01) and the group's
computation raises (an uncaught `ValueError` from `argmax` of an empty
sequence) instead of signalling no error. -/
theorem claim_C9_counterexample :
    accStartRow cexAccGroup = some ⟨⟨2022, 1, 3⟩, 6⟩ ∧
    maxRow cexAccGroup = some ⟨⟨2022, 1, 1⟩, 10⟩ ∧
    toOrdinal (⟨2022, 1, 1⟩ : Date) < toOrdinal (⟨2022, 1, 3⟩ : Date) ∧
    calcSweRow cexAccGroup = .error "attempt to get argmax of an empty sequence" := by
  refine ⟨?_, by decide, by decide, ?_⟩
  · norm_num +decide [accStartRow, cexAccGroup, withDiffs, withDiffsAux, posDiff,
      List.find?]
  · norm_num +decide [calcSweRow, cexAccGroup, maxRow, minRow, List.find?, accStartRow,
      withDiffs, withDiffsAux, posDiff, accumPeriod, toOrdinal, daysBeforeYear,
      daysBeforeMonth, cumMonthDays, monthDays, isLeap, argmaxIdx]

/-- Witness for C9 (amended) at `cexAccGroup`. -/
theorem claim_C9_witness :
    (maxRow cexAccGroup = some ⟨⟨2022, 1, 1⟩, 10⟩ ∧
      accStartRow cexAccGroup = some ⟨⟨2022, 1, 3⟩, 6⟩ ∧
      toOrdinal (⟨2022, 1, 1⟩ : Date) < toOrdinal (⟨2022, 1, 3⟩ : Date)) ∧
    (accumPeriod cexAccGroup ⟨2022, 1, 3⟩ ⟨2022, 1, 1⟩ = [] ∧
      ((toOrdinal (⟨2022, 1, 1⟩ : Date) : Int) -
        (toOrdinal (⟨2022, 1, 3⟩ : Date) : Int)) < 0 ∧
      snowfallDays (accumPeriod cexAccGroup ⟨2022, 1, 3⟩ ⟨2022, 1, 1⟩) = 0 ∧
      percSnowfall (accumPeriod cexAccGroup ⟨2022, 1, 3⟩ ⟨2022, 1, 1⟩) = none ∧
      calcSweRow cexAccGroup = .error "attempt to get argmax of an empty sequence") :=
  ⟨⟨by decide,
    by norm_num +decide [accStartRow, cexAccGroup, withDiffs, withDiffsAux, posDiff,
      List.find?],
    by decide⟩,
   @claim_C9_acc_start_after_peak cexAccGroup ⟨⟨2022, 1, 1⟩, 10⟩ ⟨⟨2022, 1, 3⟩, 6⟩
     (by decide)
     (by norm_num +decide [accStartRow, cexAccGroup, withDiffs, withDiffsAux, posDiff,
       List.find?])
     (by decide)⟩

/-- C3 (amended): over the accumulation window (whose peak index `imax`
is the first window index attaining the window maximum), the
constant-snowfall start is the earliest index whose difference is
strictly positive and whose SWE value is not undercut by any later value
up to and including the peak index; it is null exactly when no index
satisfies this; the condition is implied by — but, as the counterexample
shows, not equivalent to — the snowpack being monotonically
non-decreasing from that index to the peak. -/
theorem claim_C3_constant_snowfall (w : List (Row × Option ℚ)) (imax : Nat)
    (h : argmaxIdx (w.map (fun p => p.1.swe)) = some imax) :
    (imax < w.length ∧ ∀ j, j < w.length → sweAt w j ≤ sweAt w imax) ∧
    (∀ dte, constScan w imax = some dte →
      ∃ i, i < w.length ∧ dte = (w.getD i default).1.date ∧
        posDiff (diffAt w i) = true ∧
        (∀ j, i ≤ j → j ≤ imax → sweAt w i ≤ sweAt w j) ∧
        ∀ k, k < i →
          ¬(posDiff (diffAt w k) = true ∧
            ∀ j, k ≤ j → j ≤ imax → sweAt w k ≤ sweAt w j)) ∧
    (constScan w imax = none →
      ∀ i, i < w.length →
        ¬(posDiff (diffAt w i) = true ∧
          ∀ j, i ≤ j → j ≤ imax → sweAt w i ≤ sweAt w j)) ∧
    (∀ i, i ≤ imax →
      (∀ j, i ≤ j → j < imax → sweAt w j ≤ sweAt w (j + 1)) →
      ∀ j, i ≤ j → j ≤ imax → sweAt w i ≤ sweAt w j) := by
  constructor
  · obtain ⟨hi, hpi, _⟩ := find?_range_idx h
    rw [List.length_map] at hi
    refine ⟨hi, ?_⟩
    intro j hj
    rw [List.all_eq_true] at hpi
    have hjm : sweAt w j ∈ w.map (fun p => p.1.swe) := by
      rw [sweAt, List.getD_eq_getElem _ _ hj]
      exact List.mem_map_of_mem _ (List.getElem_mem _)
    have h2 := hpi _ hjm
    rw [map_swe_getD w imax hi] at h2
    exact of_decide_eq_true h2
  refine ⟨?_, ?_, ?_⟩
  · intro dte hdte
    unfold constScan at hdte
    rcases hfind : (List.range w.length).find? (fun i =>
        posDiff (diffAt w i) &&
        (List.range' i (imax + 1 - i)).all (fun j => decide (sweAt w i ≤ sweAt w j)))
      with _ | i
    · rw [hfind] at hdte
      simp at hdte
    · rw [hfind] at hdte
      simp only [Option.map_some', Option.some.injEq] at hdte
      subst hdte
      obtain ⟨hi, hpi, hpred⟩ := find?_range_idx hfind
      rw [Bool.and_eq_true] at hpi
      refine ⟨i, hi, rfl, hpi.1, (constCond_iff w imax i).mp hpi.2, ?_⟩
      intro k hk hcontra
      have hfalse := hpred k hk
      have htrue : (posDiff (diffAt w k) &&
          (List.range' k (imax + 1 - k)).all
            (fun j => decide (sweAt w k ≤ sweAt w j))) = true := by
        rw [Bool.and_eq_true]
        exact ⟨hcontra.1, (constCond_iff w imax k).mpr hcontra.2⟩
      rw [hfalse] at htrue
      exact Bool.false_ne_true htrue
  · intro hnone i hi hcontra
    unfold constScan at hnone
    rcases hfind : (List.range w.length).find? (fun i =>
        posDiff (diffAt w i) &&
        (List.range' i (imax + 1 - i)).all (fun j => decide (sweAt w i ≤ sweAt w j)))
      with _ | j
    · have hfalse := find?_range_none hfind i hi
      have htrue : (posDiff (diffAt w i) &&
          (List.range' i (imax + 1 - i)).all
            (fun j => decide (sweAt w i ≤ sweAt w j))) = true := by
        rw [Bool.and_eq_true]
        exact ⟨hcontra.1, (constCond_iff w imax i).mpr hcontra.2⟩
      rw [hfalse] at htrue
      exact Bool.false_ne_true htrue
    · rw [hfind] at hnone
      simp at hnone
  · intro i _ hstep j hij hjm
    induction j with
    | zero =>
      have : i = 0 := by omega
      subst this
      exact le_refl _
    | succ n ih =>
      rcases Nat.lt_or_ge n i with hni | hni
      · have : i = n + 1 := by omega
        subst this
        exact le_refl _
      · exact (ih hni (by omega)).trans (hstep n hni (by omega))

/-- Counterexample for C3 as stated: on the accumulation window
`[1, 3, 2, 4]` of `cexConstGroup` the scan selects its first day
(2022-01-02, SWE 1, positive difference, never undercut before the
peak), yet the snowpack is not monotonically non-decreasing from there
to the peak (it dips from 3 to 2), so the claimed equivalence with
monotonicity fails. -/
theorem claim_C3_counterexample :
    accStartRow cexConstGroup = some ⟨⟨2022, 1, 2⟩, 1⟩ ∧
    maxRow cexConstGroup = some ⟨⟨2022, 1, 5⟩, 4⟩ ∧
    argmaxIdx (cexConstWindow.map (fun p => p.1.swe)) = some 3 ∧
    constScan cexConstWindow 3 = some ⟨2022, 1, 2⟩ ∧
    (cexConstWindow.getD 0 default).1.date = ⟨2022, 1, 2⟩ ∧
    posDiff (diffAt cexConstWindow 0) = true ∧
    (∀ j, j ≤ 3 → sweAt cexConstWindow 0 ≤ sweAt cexConstWindow j) ∧
    monoToPeak cexConstWindow 0 3 = false := by
  refine ⟨?_, by decide, ?_, ?_, ?_, ?_, ?_, ?_⟩ <;>
    norm_num +decide [accStartRow, cexConstGroup, cexConstWindow, withDiffs, withDiffsAux,
      posDiff, List.find?, accumPeriod, toOrdinal, daysBeforeYear, daysBeforeMonth,
      cumMonthDays, monthDays, isLeap, argmaxIdx, constScan, sweAt, diffAt, monoToPeak,
      List.range', List.range, List.range.loop]

/-- Witness for C3 (amended) on the window of `cexConstGroup`. -/
theorem claim_C3_witness :
    argmaxIdx (cexConstWindow.map (fun p => p.1.swe)) = some 3 ∧
    ((3 < cexConstWindow.length ∧
      ∀ j, j < cexConstWindow.length → sweAt cexConstWindow j ≤ sweAt cexConstWindow 3) ∧
    (∀ dte, constScan cexConstWindow 3 = some dte →
      ∃ i, i < cexConstWindow.length ∧ dte = (cexConstWindow.getD i default).1.date ∧
        posDiff (diffAt cexConstWindow i) = true ∧
        (∀ j, i ≤ j → j ≤ 3 → sweAt cexConstWindow i ≤ sweAt cexConstWindow j) ∧
        ∀ k, k < i →
          ¬(posDiff (diffAt cexConstWindow k) = true ∧
            ∀ j, k ≤ j → j ≤ 3 → sweAt cexConstWindow k ≤ sweAt cexConstWindow j)) ∧
    (constScan cexConstWindow 3 = none →
      ∀ i, i < cexConstWindow.length →
        ¬(posDiff (diffAt cexConstWindow i) = true ∧
          ∀ j, i ≤ j → j ≤ 3 → sweAt cexConstWindow i ≤ sweAt cexConstWindow j)) ∧
    (∀ i, i ≤ 3 →
      (∀ j, i ≤ j → j < 3 → sweAt cexConstWindow j ≤ sweAt cexConstWindow (j + 1)) →
      ∀ j, i ≤ j → j ≤ 3 → sweAt cexConstWindow i ≤ sweAt cexConstWindow j)) := by
  have hargm : argmaxIdx (cexConstWindow.map (fun p => p.1.swe)) = some 3 := by
    norm_num +decide [cexConstWindow, cexConstGroup, withDiffs, withDiffsAux, accumPeriod,
      posDiff, toOrdinal, daysBeforeYear, daysBeforeMonth, cumMonthDays, monthDays,
      isLeap, argmaxIdx, List.find?, List.range, List.range.loop]
  exact ⟨hargm, claim_C3_constant_snowfall cexConstWindow 3 hargm⟩

/-- C4 (code bug, lines 151-152 of `swe_parameters.py`): the seasonal
timing fields are computed from the whole-year `idxmax`/`idxmin` date,
not the season-scoped one.  On `bugSeasonGroup` the code reports
hydro-day 106 (the annual maximum, 2021-12-15) as `JJA_timing_max_swe`,
while the JJA-scoped maximum (2022-06-10) sits at hydro-day 283. -/
theorem claim_C4_seasonal_timing_bug :
    (calcSweRow bugSeasonGroup).toOption.map
        (fun res => res.seasonTimingMaxSwe Season.JJA) = some (some 106) ∧
    (calcSweRow bugSeasonGroup).toOption.map
        (fun res => res.seasonTimingMaxSwe Season.DJF) = some (some 106) ∧
    dayInHydroYear (⟨2021, 12, 15⟩ : Date) 9 = 106 ∧
    seasonTimingMaxScoped bugSeasonGroup Season.JJA = some 283 ∧
    dayInHydroYear (⟨2022, 6, 10⟩ : Date) 9 = 283 ∧
    (calcSweRow bugSeasonGroup).toOption.map
        (fun res => res.seasonTimingMaxSwe Season.JJA) ≠
      some (seasonTimingMaxScoped bugSeasonGroup Season.JJA) := by
  norm_num +decide [calcSweRow, bugSeasonGroup, maxRow, minRow, List.find?, accStartRow,
    withDiffs, withDiffsAux, posDiff, baseRow, seasonRows, assignSeason,
    seasonTimingMaxScoped, dayInHydroYear, hydroYearStart, toOrdinal, daysBeforeYear,
    daysBeforeMonth, cumMonthDays, monthDays, isLeap, Except.toOption]

/-- C5: for any backend statistics, significance level and data column,
when fewer than 3 valid (year, value) pairs remain after dropping
missing values, `calculate_trends` emits a row with null slope,
intercept, p-value, mean and trend-percent and `significant = False`,
without consulting the statistics routines (so no exception can be
raised for that pair). -/
theorem claim_C5_insufficient_data (B : TrendBackend) (alpha : ℚ)
    (data : List (Int × Option ℚ)) (h : (dropna data).length < 3) :
    calculateTrendRow B alpha data = ⟨none, none, none, false, none, none⟩ := by
  simp [calculateTrendRow, h]

/-- Witness for C5: two rows, one of them missing, leave a single valid
pair. -/
theorem claim_C5_witness :
    (dropna [((2020 : Int), some (1 : ℚ)), ((2021 : Int), none)]).length < 3 ∧
    calculateTrendRow ⟨fun _ => 0, fun _ => 0, fun _ => 0⟩ (1 / 20)
        [((2020 : Int), some (1 : ℚ)), ((2021 : Int), none)] =
      ⟨none, none, none, false, none, none⟩ :=
  ⟨by decide, claim_C5_insufficient_data _ _ _ (by decide)⟩

/-- C8: whenever at least one monthly precipitation sum of the group is
nonzero, the PCI formula of line 189 — the sum of squared (unit-scaled)
monthly sums divided by itself, times 100 — evaluates to exactly 100. -/
theorem claim_C8_pci (g : List PRow)
    (h : ∃ m ∈ monthsPresent g, monthSum g m ≠ 0) :
    pciOf g = some 100 := by
  obtain ⟨m, hm, hne⟩ := h
  have hnonempty : ¬(monthsPresent g = []) := by
    intro he
    rw [he] at hm
    simp at hm
  unfold pciOf
  rw [if_neg hnonempty]
  congr 1
  unfold pci
  have hmem : monthSum g m ∈ validMonthSums g := List.mem_map_of_mem _ hm
  have hterm : (monthSum g m * 1000) ^ 2 ∈
      (validMonthSums g).map (fun x => (x * 1000) ^ 2) :=
    List.mem_map_of_mem _ hmem
  have hall : ∀ x ∈ (validMonthSums g).map (fun x => (x * 1000) ^ 2), (0 : ℚ) ≤ x := by
    intro x hx
    obtain ⟨y, _, rfl⟩ := List.mem_map.mp hx
    positivity
  have hpos : (0 : ℚ) < (monthSum g m * 1000) ^ 2 := by positivity
  have hle := List.single_le_sum hall _ hterm
  rw [div_self (ne_of_gt (lt_of_lt_of_le hpos hle))]
  norm_num

/-- Witness for C8: a single January observation of 3 mm. -/
theorem claim_C8_witness :
    (∃ m ∈ monthsPresent [⟨⟨2022, 1, 5⟩, 3⟩], monthSum [⟨⟨2022, 1, 5⟩, 3⟩] m ≠ 0) ∧
    pciOf [⟨⟨2022, 1, 5⟩, 3⟩] = some 100 := by
  have h : ∃ m ∈ monthsPresent [⟨⟨2022, 1, 5⟩, 3⟩], monthSum [⟨⟨2022, 1, 5⟩, 3⟩] m ≠ 0 :=
    ⟨1, by decide, by norm_num [monthSum, monthRows]⟩
  exact ⟨h, claim_C8_pci _ h⟩


namespace SweStats

/-! ## Calendar facts for the hydro-day claim -/

lemma isLeap_iff (y : Nat) :
    isLeap y = true ↔ (y % 4 = 0 ∧ y % 100 ≠ 0) ∨ y % 400 = 0 := by
  simp [isLeap]

set_option maxHeartbeats 1000000 in
lemma daysBeforeYear_succ (y : Nat) (hy : 1 ≤ y) :
    daysBeforeYear (y + 1) =
      daysBeforeYear y + 365 + (if isLeap y then 1 else 0) := by
  have hrw : (if isLeap y then (1 : Nat) else 0) =
      (if (y % 4 = 0 ∧ y % 100 ≠ 0) ∨ y % 400 = 0 then 1 else 0) := by
    by_cases hb : isLeap y
    · rw [if_pos hb, if_pos ((isLeap_iff y).mp hb)]
    · rw [if_neg hb, if_neg (fun hp => hb ((isLeap_iff y).mpr hp))]
  rw [hrw]
  unfold daysBeforeYear
  obtain ⟨n, rfl⟩ : ∃ n, y = n + 1 := ⟨y - 1, by omega⟩
  simp only [Nat.add_sub_cancel]
  rw [Nat.succ_div n 4, Nat.succ_div n 100, Nat.succ_div n 400]
  have h1 : 100 ∣ n + 1 → 4 ∣ n + 1 := fun h => dvd_trans (by norm_num) h
  have h2 : 400 ∣ n + 1 → 100 ∣ n + 1 := fun h => dvd_trans (by norm_num) h
  have hd : n / 100 ≤ n / 4 := Nat.div_le_div_left (by norm_num) (by norm_num)
  split_ifs with a b c <;> omega

lemma daysBeforeMonth_step (y m : Nat) :
    daysBeforeMonth y (m + 1) = daysBeforeMonth y m + daysInMonth y m := rfl

lemma cumMonthDays_mono (l : Bool) {a b : Nat} (h : a ≤ b) :
    cumMonthDays l a ≤ cumMonthDays l b := by
  induction b with
  | zero => simp [Nat.le_zero.mp h]
  | succ n ih =>
    rcases eq_or_lt_of_le h with rfl | hlt
    · exact le_refl _
    · calc cumMonthDays l a ≤ cumMonthDays l n := ih (by omega)
        _ ≤ cumMonthDays l n + monthDays l n := Nat.le_add_right _ _
        _ = cumMonthDays l (n + 1) := rfl

lemma daysBeforeMonth_mono (y : Nat) {a b : Nat} (h : a ≤ b) :
    daysBeforeMonth y a ≤ daysBeforeMonth y b :=
  cumMonthDays_mono (isLeap y) h

lemma daysBeforeMonth_le_335 (y : Nat) {m : Nat} (h : m ≤ 12) :
    daysBeforeMonth y m ≤ 335 := by
  calc daysBeforeMonth y m ≤ daysBeforeMonth y 12 := daysBeforeMonth_mono y h
    _ ≤ 335 := by
      unfold daysBeforeMonth
      cases isLeap y <;> decide

lemma daysBeforeMonth_thirteen (y : Nat) :
    daysBeforeMonth y 13 = 365 + (if isLeap y then 1 else 0) := by
  unfold daysBeforeMonth
  cases h : isLeap y <;> simp <;> decide

lemma toOrdinal_le_daysBeforeYear_succ (d : Date) (hv : d.Valid) :
    toOrdinal d ≤ daysBeforeYear (d.year + 1) := by
  obtain ⟨hy, hm1, hm2, hd1, hd2⟩ := hv
  have hstep := daysBeforeMonth_step d.year d.month
  have h13 : daysBeforeMonth d.year (d.month + 1) ≤ daysBeforeMonth d.year 13 :=
    daysBeforeMonth_mono d.year (by omega)
  have h13v := daysBeforeMonth_thirteen d.year
  have hsucc := daysBeforeYear_succ d.year hy
  set t := (if isLeap d.year then (1 : Nat) else 0)
  simp only [toOrdinal]
  omega

lemma ord_start_succ_lt (s y : Nat) (hs : s ≤ 12) (hy : 1 ≤ y) :
    toOrdinal ⟨y, s, 1⟩ < toOrdinal ⟨y + 1, s, 1⟩ := by
  have h1 : daysBeforeMonth y s ≤ 335 := daysBeforeMonth_le_335 y hs
  have h2 := daysBeforeYear_succ y hy
  set t := (if isLeap y then (1 : Nat) else 0)
  simp only [toOrdinal]
  omega

lemma ord_start_year_mono (s : Nat) (hs : s ≤ 12) {y1 y2 : Nat} (h1 : 1 ≤ y1)
    (h : y1 < y2) : toOrdinal ⟨y1, s, 1⟩ < toOrdinal ⟨y2, s, 1⟩ := by
  have key : ∀ k, toOrdinal ⟨y1, s, 1⟩ < toOrdinal ⟨y1 + 1 + k, s, 1⟩ := by
    intro k
    induction k with
    | zero => exact ord_start_succ_lt s y1 hs h1
    | succ n ih => exact ih.trans (ord_start_succ_lt s (y1 + 1 + n) hs (by omega))
  obtain ⟨k, rfl⟩ : ∃ k, y2 = y1 + 1 + k := ⟨y2 - y1 - 1, by omega⟩
  exact key k

lemma hydroYearStart_le (d : Date) (s : Nat) (hv : d.Valid) (hs2 : s ≤ 12)
    (hy2 : 2 ≤ d.year) :
    toOrdinal (hydroYearStart d s) ≤ toOrdinal d := by
  obtain ⟨hy, hm1, hm2, hd1, hd2⟩ := hv
  unfold hydroYearStart
  by_cases hc : s ≤ d.month
  · rw [if_pos hc]
    have hmono : daysBeforeMonth d.year s ≤ daysBeforeMonth d.year d.month :=
      daysBeforeMonth_mono d.year hc
    simp only [toOrdinal]
    omega
  · rw [if_neg hc]
    have h335 : daysBeforeMonth (d.year - 1) s ≤ 335 := daysBeforeMonth_le_335 _ hs2
    have hsucc := daysBeforeYear_succ (d.year - 1) (by omega)
    have hyy : d.year - 1 + 1 = d.year := by omega
    rw [hyy] at hsucc
    set t := (if isLeap (d.year - 1) then (1 : Nat) else 0)
    simp only [toOrdinal]
    omega

lemma next_boundary_gt (d : Date) (s : Nat) (hv : d.Valid) (hs1 : 1 ≤ s)
    (hs2 : s ≤ 12) :
    toOrdinal d < toOrdinal ⟨(hydroYearStart d s).year + 1, s, 1⟩ := by
  have hvc := hv
  obtain ⟨hy, hm1, hm2, hd1, hd2⟩ := hvc
  unfold hydroYearStart
  by_cases hc : s ≤ d.month
  · rw [if_pos hc]
    have hle := toOrdinal_le_daysBeforeYear_succ d hv
    simp only [toOrdinal] at hle ⊢
    omega
  · rw [if_neg hc]
    have hyy : d.year - 1 + 1 = d.year := by omega
    show toOrdinal d < toOrdinal ⟨d.year - 1 + 1, s, 1⟩
    rw [hyy]
    have hstep := daysBeforeMonth_step d.year d.month
    have hmono : daysBeforeMonth d.year (d.month + 1) ≤ daysBeforeMonth d.year s :=
      daysBeforeMonth_mono d.year (by omega)
    simp only [toOrdinal]
    omega

lemma hydroYearStart_most_recent (d : Date) (s : Nat) (hv : d.Valid)
    (hs1 : 1 ≤ s) (hs2 : s ≤ 12) :
    ∀ y, 1 ≤ y → toOrdinal ⟨y, s, 1⟩ ≤ toOrdinal d →
      toOrdinal ⟨y, s, 1⟩ ≤ toOrdinal (hydroYearStart d s) := by
  intro y hy hle
  have hYform : hydroYearStart d s = ⟨(hydroYearStart d s).year, s, 1⟩ := rfl
  rcases le_or_lt y (hydroYearStart d s).year with hcase | hcase
  · rw [hYform]
    rcases eq_or_lt_of_le hcase with rfl | hlt
    · exact le_refl _
    · exact le_of_lt (ord_start_year_mono s hs2 hy hlt)
  · exfalso
    have h1 : toOrdinal ⟨(hydroYearStart d s).year + 1, s, 1⟩ ≤ toOrdinal ⟨y, s, 1⟩ := by
      rcases eq_or_lt_of_le (Nat.succ_le_of_lt hcase) with heq | hlt
      · rw [Nat.succ_eq_add_one] at heq
        rw [heq]
      · exact le_of_lt (ord_start_year_mono s hs2 (by omega) hlt)
    have h2 := next_boundary_gt d s hv hs1 hs2
    omega

lemma toOrdinal_nextDate (d : Date) (hv : d.Valid) :
    toOrdinal (nextDate d) = toOrdinal d + 1 := by
  obtain ⟨hy, hm1, hm2, hd1, hd2⟩ := hv
  unfold nextDate
  split_ifs with h1 h2
  · simp only [toOrdinal]
    omega
  · have hstep := daysBeforeMonth_step d.year d.month
    simp only [toOrdinal]
    omega
  · have hm12 : d.month = 12 := by omega
    have hdim : daysInMonth d.year 12 = 31 := rfl
    have hday : d.day = 31 := by
      rw [hm12] at hd2 h1
      omega
    have h13v := daysBeforeMonth_thirteen d.year
    have hstep13 : daysBeforeMonth d.year 13 =
        daysBeforeMonth d.year 12 + daysInMonth d.year 12 := rfl
    have hsucc := daysBeforeYear_succ d.year hy
    have hdbm1 : daysBeforeMonth (d.year + 1) 1 = 0 := rfl
    set t := (if isLeap d.year then (1 : Nat) else 0)
    simp only [toOrdinal]
    rw [hm12, hday]
    omega

lemma hydroYearStart_nextDate (d : Date) (s : Nat) (hv : d.Valid)
    (hs1 : 1 ≤ s) (hs2 : s ≤ 12)
    (hnb : ¬((nextDate d).month = s ∧ (nextDate d).day = 1)) :
    hydroYearStart (nextDate d) s = hydroYearStart d s := by
  obtain ⟨hy, hm1, hm2, hd1, hd2⟩ := hv
  unfold nextDate at hnb ⊢
  split_ifs at hnb ⊢ with h1 h2
  · rfl
  · simp only [and_true] at hnb
    show (⟨if s ≤ d.month + 1 then d.year else d.year - 1, s, 1⟩ : Date) =
      ⟨if s ≤ d.month then d.year else d.year - 1, s, 1⟩
    congr 1
    split_ifs <;> omega
  · simp only [and_true] at hnb
    have hm12 : d.month = 12 := by omega
    show (⟨if s ≤ 1 then d.year + 1 else d.year + 1 - 1, s, 1⟩ : Date) =
      ⟨if s ≤ d.month then d.year else d.year - 1, s, 1⟩
    congr 1
    rw [hm12]
    split_ifs <;> omega

end SweStats

/-- C7: for a valid date and start month, `day_in_hydro_year` returns
`(date - boundary).days + 1` where the boundary is the most recent 1st
of the start month on or before the date (it is a 1st of the start
month, lies on or before the date, and no later such 1st does); the
boundary date itself maps to 1; stepping to the next calendar day within
the same hydrological year increases the value by exactly 1; a missing
date yields a null output (and the function is total, so it never
raises). -/
theorem claim_C7_day_in_hydro_year (d : Date) (s : Nat) (hv : d.Valid)
    (hs1 : 1 ≤ s) (hs2 : s ≤ 12) (hy2 : 2 ≤ d.year) :
    dayInHydroYearOpt (some d) s =
      some ((toOrdinal d : Int) - (toOrdinal (hydroYearStart d s) : Int) + 1) ∧
    (hydroYearStart d s).month = s ∧
    (hydroYearStart d s).day = 1 ∧
    toOrdinal (hydroYearStart d s) ≤ toOrdinal d ∧
    (∀ y, 1 ≤ y → toOrdinal ⟨y, s, 1⟩ ≤ toOrdinal d →
      toOrdinal ⟨y, s, 1⟩ ≤ toOrdinal (hydroYearStart d s)) ∧
    (d.month = s ∧ d.day = 1 → dayInHydroYear d s = 1) ∧
    (¬((nextDate d).month = s ∧ (nextDate d).day = 1) →
      dayInHydroYear (nextDate d) s = dayInHydroYear d s + 1) ∧
    dayInHydroYearOpt none s = none := by
  refine ⟨rfl, rfl, rfl, hydroYearStart_le d s hv hs2 hy2,
    hydroYearStart_most_recent d s hv hs1 hs2, ?_, ?_, rfl⟩
  · rintro ⟨hm, hd1⟩
    have hstart : hydroYearStart d s = d := by
      unfold hydroYearStart
      rw [if_pos (by omega : s ≤ d.month), ← hm, ← hd1]
    unfold dayInHydroYear
    rw [hstart]
    omega
  · intro hnb
    have h1 := toOrdinal_nextDate d hv
    have h2 := hydroYearStart_nextDate d s hv hs1 hs2 hnb
    unfold dayInHydroYear
    rw [h1, h2]
    push_cast
    ring

/-- Witness for C7 at 2022-08-31 with the default start month 9: the
hydro year starting 2021-09-01 gives day 365, the boundary itself gives
day 1, and the next boundary resets to 1. -/
theorem claim_C7_witness :
    ((⟨2022, 8, 31⟩ : Date).Valid ∧ 1 ≤ 9 ∧ 9 ≤ 12 ∧ 2 ≤ (⟨2022, 8, 31⟩ : Date).year) ∧
    (dayInHydroYearOpt (some ⟨2022, 8, 31⟩) 9 =
      some ((toOrdinal (⟨2022, 8, 31⟩ : Date) : Int) -
        (toOrdinal (hydroYearStart ⟨2022, 8, 31⟩ 9) : Int) + 1) ∧
    (hydroYearStart ⟨2022, 8, 31⟩ 9).month = 9 ∧
    (hydroYearStart ⟨2022, 8, 31⟩ 9).day = 1 ∧
    toOrdinal (hydroYearStart ⟨2022, 8, 31⟩ 9) ≤ toOrdinal ⟨2022, 8, 31⟩ ∧
    (∀ y, 1 ≤ y → toOrdinal ⟨y, 9, 1⟩ ≤ toOrdinal ⟨2022, 8, 31⟩ →
      toOrdinal ⟨y, 9, 1⟩ ≤ toOrdinal (hydroYearStart ⟨2022, 8, 31⟩ 9)) ∧
    ((⟨2022, 8, 31⟩ : Date).month = 9 ∧ (⟨2022, 8, 31⟩ : Date).day = 1 →
      dayInHydroYear ⟨2022, 8, 31⟩ 9 = 1) ∧
    (¬((nextDate ⟨2022, 8, 31⟩).month = 9 ∧ (nextDate ⟨2022, 8, 31⟩).day = 1) →
      dayInHydroYear (nextDate ⟨2022, 8, 31⟩) 9 = dayInHydroYear ⟨2022, 8, 31⟩ 9 + 1) ∧
    dayInHydroYearOpt none 9 = none) ∧
    hydroYearStart ⟨2022, 8, 31⟩ 9 = ⟨2021, 9, 1⟩ ∧
    dayInHydroYear ⟨2022, 8, 31⟩ 9 = 365 ∧
    dayInHydroYear ⟨2021, 9, 1⟩ 9 = 1 ∧
    dayInHydroYear ⟨2022, 9, 1⟩ 9 = 1 :=
  ⟨⟨by decide, by decide, by decide, by decide⟩,
   claim_C7_day_in_hydro_year ⟨2022, 8, 31⟩ 9 (by decide) (by decide) (by decide)
     (by decide),
   by decide, by decide, by decide, by decide⟩

/-- C6: `assign_hydrological_year` maps a record with calendar month `>= s`
to `calendar_year + 1` and any other record to `calendar_year`; with the
default start month 9, 2021-09-01 is assigned hydro year 2022 and
2021-08-31 is assigned hydro year 2021. -/
theorem claim_C6_hydro_year_assignment (d : Date) (s : Nat)
    (h1 : 1 ≤ s) (h2 : s ≤ 12) :
    (s ≤ d.month → hydroYear d s = d.year + 1) ∧
    (d.month < s → hydroYear d s = d.year) ∧
    hydroYear ⟨2021, 9, 1⟩ 9 = 2022 ∧
    hydroYear ⟨2021, 8, 31⟩ 9 = 2021 := by
  refine ⟨fun h => ?_, fun h => ?_, by decide, by decide⟩
  · simp [hydroYear, h]
  · simp [hydroYear, Nat.not_le.mpr h]

/-- Witness for C6 at `s = 9`, `d = 2021-09-01`. -/
theorem claim_C6_witness :
    (1 ≤ 9 ∧ 9 ≤ 12) ∧
      ((9 ≤ (⟨2021, 9, 1⟩ : Date).month →
          hydroYear ⟨2021, 9, 1⟩ 9 = (⟨2021, 9, 1⟩ : Date).year + 1) ∧
       ((⟨2021, 9, 1⟩ : Date).month < 9 →
          hydroYear ⟨2021, 9, 1⟩ 9 = (⟨2021, 9, 1⟩ : Date).year) ∧
       hydroYear ⟨2021, 9, 1⟩ 9 = 2022 ∧
       hydroYear ⟨2021, 8, 31⟩ 9 = 2021) :=
  ⟨⟨by decide, by decide⟩,
    claim_C6_hydro_year_assignment ⟨2021, 9, 1⟩ 9 (by decide) (by decide)⟩

/-- C10: summer snowfall statistics are computed from differences taken
within the June-August subseries: the count equals the number of
consecutive summer pairs with a strictly positive difference, prepending
any non-summer rows (e.g. a low May 31 value before a high June 1 value)
changes neither the count nor the accumulated sum, and a year whose
summer subseries is a single observation counts no summer snowfall. -/
theorem claim_C10_summer_snowfall (g : List Row) :
    summerSnowfallCount g =
      ((summerRows g).zip (summerRows g).tail).countP
        (fun p => decide (p.1.swe < p.2.swe)) ∧
    (∀ pre : List Row,
        (∀ r ∈ pre, ¬(r.date.month = 6 ∨ r.date.month = 7 ∨ r.date.month = 8)) →
        summerSnowfallCount (pre ++ g) = summerSnowfallCount g ∧
        summerSnowfallAcc (pre ++ g) = summerSnowfallAcc g) ∧
    (∀ r : Row, summerRows g = [r] → summerSnowfallCount g = 0) := by
  refine ⟨rfl, fun pre hpre => ?_, fun r hr => ?_⟩
  · have hsr : summerRows (pre ++ g) = summerRows g := by
      unfold summerRows
      rw [List.filter_append]
      have hnil : pre.filter
          (fun r => decide (r.date.month = 6 ∨ r.date.month = 7 ∨ r.date.month = 8)) =
          [] := by
        rw [List.filter_eq_nil]
        intro a ha
        simpa using hpre a ha
      rw [hnil, List.nil_append]
    constructor
    · unfold summerSnowfallCount summerPairs
      rw [hsr]
    · unfold summerSnowfallAcc summerPairs
      rw [hsr]
  · unfold summerSnowfallCount summerPairs
    rw [hr]
    rfl

/-- Witness for C10: a +5 rise from May 31 into June 1 is not counted as
a summer snowfall event. -/
theorem claim_C10_witness :
    summerSnowfallCount
        ([⟨⟨2022, 5, 31⟩, 0⟩] ++ [⟨⟨2022, 6, 1⟩, 5⟩, ⟨⟨2022, 6, 2⟩, 5⟩]) = 0 ∧
    summerSnowfallCount [⟨⟨2022, 6, 1⟩, 5⟩, ⟨⟨2022, 6, 2⟩, 5⟩] = 0 := by
  have h := (claim_C10_summer_snowfall
      [⟨⟨2022, 6, 1⟩, 5⟩, ⟨⟨2022, 6, 2⟩, 5⟩]).2.1 [⟨⟨2022, 5, 31⟩, 0⟩] (by decide)
  refine ⟨h.1.trans ?_, ?_⟩ <;>
    norm_num +decide [summerSnowfallCount, summerPairs, summerRows]
